import Mathlib

/-!
Verification of the `dps-pressure-logger` subsystem (driver `dps8000.py`,
adapter `dps8000_adapter.py`, logger `dps_logger.py`, and simulator
`rs485_pressure_sim.py`) against its natural-language specification.

The Python sources are embedded shallowly:
* pure numeric code becomes functions over `ℝ` (for the analog signal model)
  or `ℚ` (for exact protocol and driver arithmetic);
* `time.perf_counter()` readings become explicit `now`-parameters;
* the single draw of `random.gauss(0, std)` used by the `noise` signal mode
  becomes an explicit parameter `g`;
* Python exceptions become `Except`-values;
* float `NaN` sentinels are embedded as `Option` (`none` = NaN).
-/

namespace DPS

open Filter

/-! ## Signal model (`rs485_pressure_sim.py`, lines 8–48) -/

/-- Signal mode tag, mirroring `Mode = Literal["sine","saw","settle","noise","const"]`. -/
inductive Mode where
  | sine | saw | settle | noise | const
deriving DecidableEq, Repr

/-- Mirrors the dataclass `SignalCfg`. -/
structure SignalCfg where
  mode : Mode
  offset : ℝ
  amplitude : ℝ
  freq_hz : ℝ
  p1 : ℝ
  p2 : ℝ
  tau_s : ℝ
  noise_std : ℝ

/-- Mirrors class `Signal`: a configuration plus the reference time `t0`. -/
structure Signal where
  cfg : SignalCfg
  t0 : ℝ

/-- Mirrors `Signal.value(self, t)`.  The chain of `if` tests follows the
Python source line by line.  `g` stands for the draw of
`random.gauss(0.0, c.noise_std)` in the `noise` branch; Python's
`math.exp` and `%` on floats are embedded as `Real.exp` and `Int.fract`. -/
noncomputable def Signal.value (s : Signal) (t : ℝ) (g : ℝ) : ℝ :=
  let c := s.cfg
  if c.mode = Mode.const then c.offset
  else if c.mode = Mode.sine then
    c.offset + c.amplitude * Real.sin (2 * Real.pi * c.freq_hz * (t - s.t0))
  else if c.mode = Mode.saw then
    c.offset + c.amplitude * (2 * Int.fract ((t - s.t0) * c.freq_hz) - 1)
  else if c.mode = Mode.noise then c.offset + g
  else if c.mode = Mode.settle then
    c.p2 + (c.p1 - c.p2) * Real.exp (-(max 0 (t - s.t0)) / max (1 / 1000000) c.tau_s)
  else c.offset

/-- Mirrors `Signal.step_to(self, p2_new)`: read `p_now = value(now)` from the
pre-state, then set `p1 := p_now`, `p2 := p2_new`, `t0 := now`. -/
noncomputable def Signal.step_to (s : Signal) (now g p2_new : ℝ) : Signal :=
  { cfg := { s.cfg with p1 := s.value now g, p2 := p2_new }, t0 := now }

/-- A concrete Settle-mode signal state, matching the simulator's defaults
(`p1 = 1.5`, `p2 = 1.0`, `tau = 30`), with reference time `t0 = 0`. -/
noncomputable def settleExample : Signal :=
  { cfg := ⟨Mode.settle, 1, 0.2, 0.05, 1.5, 1, 30, 0.01⟩, t0 := 0 }

/-! ## String primitives

Python `str` values are embedded as `List Char` (`String.data` at literals).
The helpers below mirror the exact `str` methods the sources use:
`strip`, `lower`, `upper`, `startswith`, and `split(sep, 1)`. -/

/-- Python `str.strip()` (no argument): drop leading and trailing whitespace. -/
def pyStrip (l : List Char) : List Char :=
  ((l.dropWhile Char.isWhitespace).reverse.dropWhile Char.isWhitespace).reverse

/-- Python `str.lower()` for the ASCII strings used by the protocol. -/
def pyLower (l : List Char) : List Char := l.map Char.toLower

/-- Python `str.upper()` for the ASCII strings used by the protocol. -/
def pyUpper (l : List Char) : List Char := l.map Char.toUpper

/-- Python `s.split(sep, 1)` when it yields two parts: the text before the
first `sep` and everything after it; `none` when `sep` does not occur
(in which case a two-variable unpacking in the source raises). -/
def splitOnce (sep : Char) : List Char → Option (List Char × List Char)
  | [] => none
  | c :: cs =>
    if c = sep then some ([], cs)
    else
      match splitOnce sep cs with
      | none => none
      | some (a, b) => some (c :: a, b)

/-- Numeric value of a list of ASCII digits (most significant first). -/
def digitsToNat (l : List Char) : ℕ :=
  l.foldl (fun a c => 10 * a + (c.toNat - 48)) 0

/-- Leading-sign parse shared by Python `int()` / `float()`. -/
def pySign : List Char → ℤ × List Char
  | '+' :: cs => (1, cs)
  | '-' :: cs => (-1, cs)
  | cs => (1, cs)

/-- Nonempty all-digit test. -/
def allDigits (l : List Char) : Bool := !l.isEmpty && l.all Char.isDigit

/-- Python `int(s)` on the decimal strings the protocol uses: surrounding
whitespace and an optional sign are accepted; underscores and other bases
are not modelled. `none` embeds a raised `ValueError`. -/
def pyInt (s : List Char) : Option ℤ :=
  let t := pySign (pyStrip s)
  if allDigits t.2 then some (t.1 * digitsToNat t.2) else none

/-- Split a float literal at the exponent marker `e`/`E`, if any. -/
def splitExp : List Char → List Char × Option (List Char)
  | [] => ([], none)
  | c :: cs =>
    if c = 'e' ∨ c = 'E' then ([], some cs)
    else
      match splitExp cs with
      | (m, e) => (c :: m, e)

/-- The syntactic pieces of an accepted decimal float literal: sign, integer
digits, fractional digits with their count, and the signed exponent. -/
structure FloatParts where
  sign : ℤ
  ip : ℕ
  fp : ℕ
  fpLen : ℕ
  ex : ℤ
deriving DecidableEq, Repr

/-- Recognizer half of Python `float(s)` on decimal literals: optional
surrounding whitespace and sign, integer and/or fractional digits around an
optional dot, optional signed decimal exponent.  The literals `inf`/`nan` and
underscore separators are not modelled.  `none` embeds a raised
`ValueError`. -/
def pyFloatParts (s : List Char) : Option FloatParts :=
  let t := pySign (pyStrip s)
  let me := splitExp t.2
  let expVal : Option ℤ :=
    match me.2 with
    | none => some 0
    | some ecs =>
      let te := pySign ecs
      if allDigits te.2 then some (te.1 * digitsToNat te.2) else none
  match expVal with
  | none => none
  | some e =>
    match splitOnce '.' me.1 with
    | none =>
      if allDigits me.1 then some ⟨t.1, digitsToNat me.1, 0, 0, e⟩ else none
    | some (ip, fp) =>
      if (ip.all Char.isDigit && fp.all Char.isDigit) &&
          !(ip.isEmpty && fp.isEmpty) then
        some ⟨t.1, digitsToNat ip, digitsToNat fp, fp.length, e⟩
      else none

/-- Exact rational value of an accepted float literal. -/
def partsVal (p : FloatParts) : ℚ :=
  p.sign * ((p.ip : ℚ) + (p.fp : ℚ) / (10 : ℚ) ^ p.fpLen) * (10 : ℚ) ^ p.ex

/-- Python `float(s)`, embedded exactly into `ℚ` via `pyFloatParts`. -/
def pyFloat (s : List Char) : Option ℚ := (pyFloatParts s).map partsVal

/-! ## Device simulator (`rs485_pressure_sim.py`, lines 50–255) -/

/-- Mirrors the dataclass `DeviceCfg`, restricted to the fields the command
handler reads or writes.  `port`, `baud` and `autosend_rate_hz` configure I/O
only and are omitted.  `last_temp_update` lives on the `DPSSim` object in the
source; it is carried here because `_now_temp` updates it together with
`temp_c`. -/
structure DeviceCfg where
  unit : List Char
  addr : ℤ
  autosend : Bool
  echo_address_in_reply : Bool
  temp_c : ℝ
  temp_drift_c_per_min : ℝ
  last_temp_update : ℝ

/-- The `_BAR_TO` table of the simulator (`{"bar":1.0, "Pa":1e5, "kPa":1e2,
"mbar":1e3, "psi":14.503773773}`), with `.get`-style default `1.0`. -/
def barToFactor (u : List Char) : ℚ :=
  if u = ("bar").data then 1
  else if u = ("Pa").data then 100000
  else if u = ("kPa").data then 100
  else if u = ("mbar").data then 1000
  else if u = ("psi").data then 14503773773 / 1000000000
  else 1

/-- Mirrors `convert_from_bar(x_bar, unit)`. -/
noncomputable def convert_from_bar (x_bar : ℝ) (u : List Char) : ℝ :=
  x_bar * (barToFactor u : ℝ)

/-- The simulator's `UNITS_ALLOWED` set. -/
def unitsAllowed : List (List Char) :=
  [("bar").data, ("Pa").data, ("kPa").data, ("mbar").data, ("psi").data]

/-- Mirrors `DPSSim._now_temp`: applies the configured temperature drift and
returns the updated configuration together with the current temperature. -/
noncomputable def nowTemp (dev : DeviceCfg) (now : ℝ) : DeviceCfg × ℝ :=
  let dtMin := (now - dev.last_temp_update) / 60
  if 0 < |dev.temp_drift_c_per_min| ∧ 0 < dtMin then
    let t' := dev.temp_c + dev.temp_drift_c_per_min * dtMin
    ({ dev with temp_c := t', last_temp_update := now }, t')
  else (dev, dev.temp_c)

/-- The optional `"<addr>:"` decoration on measurement-style replies:
present exactly when `self.dev.addr != 0 and self.dev.echo_address_in_reply`. -/
def echoTag (dev : DeviceCfg) : Option ℤ :=
  if dev.addr ≠ 0 ∧ dev.echo_address_in_reply then some dev.addr else none

/-- One reply line written by `_send_line`, abstracted to its structured
content (the `%.6f`-style decimal rendering is not modelled). -/
inductive Reply where
  | identity
  | nAck (addr : ℤ)
  | uAck (unit : List Char)
  | aAck (enabled : Bool)
  | err
  | measR (v : ℝ) (tag : Option ℤ)
  | measG (v : ℝ) (unit : List Char) (tag : Option ℤ)
  | tempC (v : ℝ) (tag : Option ℤ)
  | rawZ (f dv : ℝ) (tag : Option ℤ)
  | sOkP2 (raw : List Char)
  | sOkTau (v : ℝ)
  | sOkMode (m : Mode)
  | sErrBadMode
  | sErrBadKey
  | sErr

/-- The structured form of one inbound line after `handle_command`'s chain of
dispatch tests (the tests are replayed literally by `parseCmd`). -/
inductive Cmd where
  | ident
  | setAddr (a : Option ℤ)
  | setUnit (u : List Char)
  | setAuto (v : List Char)
  | readR
  | readG
  | readT
  | readZ
  | sKV (k v : List Char)
  | sBad
  | unknown
deriving DecidableEq, Repr

/-- The `"<digits>:"` address recognizer of `handle_command`, mirroring the
backtracking match of `re.match(r"^(\d{1,2}):(.*)$", line)`. -/
def addrTagOf (line : List Char) : Option (ℤ × List Char) :=
  match line with
  | c1 :: c2 :: c3 :: rest =>
    if c1.isDigit && c2.isDigit && c3 = ':' then
      some ((10 * (c1.toNat - 48) + (c2.toNat - 48) : ℕ), rest)
    else if c1.isDigit && c2 = ':' then
      some (((c1.toNat - 48 : ℕ) : ℤ), c3 :: rest)
    else none
  | [c1, c2] =>
    if c1.isDigit && c2 = ':' then some (((c1.toNat - 48 : ℕ) : ℤ), []) else none
  | _ => none

/-- The address-filter stage of `handle_command` (source lines 150–156):
in network mode an own-address tag is stripped (and the rest re-stripped), a
foreign tag drops the line (`none`), and an untagged line passes through. -/
def stripAddr (addr : ℤ) (line : List Char) : Option (List Char) :=
  if addr = 0 then some line
  else
    match addrTagOf line with
    | some p => if p.1 ≠ addr then none else some (pyStrip p.2)
    | none => some line

/-- The dispatch tests of `handle_command` (source lines 158–255), replayed
in source order on the filtered line. -/
def parseCmd (line : List Char) : Cmd :=
  if line = ("I").data then .ident
  else if (("N,").data).isPrefixOf line then .setAddr (pyInt (line.drop 2))
  else if (("U,").data).isPrefixOf line then .setUnit (pyStrip (line.drop 2))
  else if (("A,").data).isPrefixOf line then .setAuto (pyStrip (line.drop 2))
  else if line = ("R").data then .readR
  else if line = ("*G").data then .readG
  else if line = ("*T").data then .readT
  else if line = ("*Z").data then .readZ
  else if (("S,").data).isPrefixOf line then
    match splitOnce ',' (line.drop 2) with
    | none => .sBad
    | some (k, v) => .sKV (pyUpper (pyStrip k)) (pyStrip v)
  else .unknown

/-- The `S,MODE` argument check: membership of the lower-cased name in
`{"settle","sine","saw","noise","const"}`. -/
def parseMode (s : List Char) : Option Mode :=
  if s = ("settle").data then some .settle
  else if s = ("sine").data then some .sine
  else if s = ("saw").data then some .saw
  else if s = ("noise").data then some .noise
  else if s = ("const").data then some .const
  else none

/-- Result of handling one line: the updated device configuration and signal
state, and the reply lines written (in order). -/
structure SimStep where
  dev : DeviceCfg
  sig : Signal
  replies : List Reply

/-- The state-mutation and reply phase of `handle_command`, one branch per
dispatch case.  `now` is the `time.perf_counter()` reading taken during
handling and `g` the `random.gauss` draw of a `noise`-mode evaluation.
The `A,1` branch also restarts the autosend thread in the source; thread
management is not modelled, only the `autosend` flag. -/
noncomputable def applyCmd (dev : DeviceCfg) (sig : Signal) (now g : ℝ) :
    Cmd → SimStep
  | .ident => ⟨dev, sig, [.identity]⟩
  | .setAddr none => ⟨dev, sig, [.err]⟩
  | .setAddr (some a) => ⟨{ dev with addr := a }, sig, [.nAck a]⟩
  | .setUnit u =>
    if u ∈ unitsAllowed then ⟨{ dev with unit := u }, sig, [.uAck u]⟩
    else ⟨dev, sig, [.err]⟩
  | .setAuto v =>
    if v = ("0").data then ⟨{ dev with autosend := false }, sig, [.aAck false]⟩
    else if v = ("1").data then
      ⟨{ dev with autosend := true }, sig, [.aAck true]⟩
    else ⟨dev, sig, [.err]⟩
  | .readR =>
    ⟨dev, sig, [.measR (convert_from_bar (sig.value now g) dev.unit)
      (echoTag dev)]⟩
  | .readG =>
    ⟨dev, sig, [.measG (convert_from_bar (sig.value now g) dev.unit) dev.unit
      (echoTag dev)]⟩
  | .readT =>
    ⟨(nowTemp dev now).1, sig, [.tempC (nowTemp dev now).2 (echoTag dev)]⟩
  | .readZ =>
    ⟨dev, sig, [.rawZ (32000 + 500 * Real.sin (2 * Real.pi * 0.01 * now))
      (450 + 5 * Real.sin (2 * Real.pi * 0.005 * now)) (echoTag dev)]⟩
  | .sKV k v =>
    if k = ("P2").data then
      match pyFloat v with
      | some x => ⟨dev, sig.step_to now g x, [.sOkP2 v]⟩
      | none => ⟨dev, sig, [.sErr]⟩
    else if k = ("TAU").data then
      match pyFloat v with
      | some x =>
        ⟨dev, { sig with cfg := { sig.cfg with tau_s := max (1 / 1000000) x } },
          [.sOkTau (max (1 / 1000000 : ℝ) x)]⟩
      | none => ⟨dev, sig, [.sErr]⟩
    else if k = ("MODE").data then
      match parseMode (pyLower v) with
      | some m =>
        ⟨dev, { sig with cfg := { sig.cfg with mode := m }, t0 := now },
          [.sOkMode m]⟩
      | none => ⟨dev, sig, [.sErrBadMode]⟩
    else ⟨dev, sig, [.sErrBadKey]⟩
  | .sBad => ⟨dev, sig, [.sErr]⟩
  | .unknown => ⟨dev, sig, [.err]⟩

/-- Mirrors `DPSSim.handle_command(raw)` end to end: the empty-line guard,
`raw.strip()`, the address filter, and dispatch. -/
noncomputable def handleCommand (dev : DeviceCfg) (sig : Signal) (now g : ℝ)
    (raw : List Char) : SimStep :=
  if raw = [] then ⟨dev, sig, []⟩
  else
    match stripAddr dev.addr (pyStrip raw) with
    | none => ⟨dev, sig, []⟩
    | some line => applyCmd dev sig now g (parseCmd line)

/-- Concrete direct-mode simulator configuration (the CLI defaults:
`unit=bar`, `addr=0`, no autosend, no address echo, `temp=25`, no drift). -/
noncomputable def devDirect : DeviceCfg :=
  { unit := ("bar").data, addr := 0, autosend := false,
    echo_address_in_reply := false, temp_c := 25, temp_drift_c_per_min := 0,
    last_temp_update := 0 }

/-- Concrete network-mode simulator configuration with `addr=5` and
`--echo-addr` enabled. -/
noncomputable def devEcho : DeviceCfg :=
  { unit := ("bar").data, addr := 5, autosend := false,
    echo_address_in_reply := true, temp_c := 25, temp_drift_c_per_min := 0,
    last_temp_update := 0 }


/-! ## Device client (`dps8000.py`) -/

/-- The payload of the `DPS8000Error` raised by `_safe_cmd` after exhausting
retries: `f"Command '{cmd}' failed: {last_exc}"`. -/
structure CmdFailure where
  cmd : List Char
  lastCause : List Char
deriving DecidableEq, Repr

/-- Mirrors `DPS8000._safe_cmd`'s retry loop.  `txrx k` is the outcome of the
`k`-th `_txrx_once` exchange (`error` = the message of a raised exception,
`ok` = the stripped reply text).  Returns the number of exchanges attempted,
the `time.sleep(0.05 * (attempt + 1))` backoff durations in seconds (`ℚ`),
and the final outcome.  The first argument of the recursion is the current
attempt index, the second the number of loop iterations left. -/
def safeCmdGo (txrx : ℕ → Except (List Char) (List Char)) (cmd : List Char) :
    ℕ → ℕ → Option (List Char) → ℕ × List ℚ × Except CmdFailure (List Char)
  | _, 0, last => (0, [], .error ⟨cmd, last.getD (("None").data)⟩)
  | attempt, n + 1, _ =>
    match txrx attempt with
    | .ok s => (1, [], .ok s)
    | .error e =>
      let p := safeCmdGo txrx cmd (attempt + 1) n (some e)
      (p.1 + 1, (1 / 20 : ℚ) * (attempt + 1) :: p.2.1, p.2.2)

/-- `_safe_cmd` proper: `for attempt in range(retries + 1)`. -/
def safeCmd (retries : ℕ) (txrx : ℕ → Except (List Char) (List Char))
    (cmd : List Char) : ℕ × List ℚ × Except CmdFailure (List Char) :=
  safeCmdGo txrx cmd 0 (retries + 1) none

/-- The configuration fields of `DPS8000Config` that the public configuration
commands mirror (`unit`, `direct_mode`, `address`), plus the retry bound. -/
structure ClientCfg where
  unit : List Char
  direct_mode : Bool
  address : Option ℤ
  retries : ℕ
deriving DecidableEq, Repr

/-- Whether an `Except` is a normal return (no exception raised). -/
def exOk {ε α : Type} : Except ε α → Bool
  | .ok _ => true
  | .error _ => false

/-- Decimal digits of a natural number, mirroring Python `str(int)`. -/
def natToDigits (n : ℕ) : List Char :=
  if n < 10 then [Char.ofNat (48 + n)]
  else natToDigits (n / 10) ++ [Char.ofNat (48 + n % 10)]
decreasing_by exact Nat.div_lt_self (by omega) (by omega)

/-- Python `str(int)` for a (possibly negative) integer. -/
def intToChars (z : ℤ) : List Char :=
  if z < 0 then '-' :: natToDigits z.natAbs else natToDigits z.natAbs

/-- Mirrors `DPS8000.set_unit`: send `U,<unit>`, then (on any normal return,
whatever the reply text) update the cached unit; a raised `DPS8000Error`
leaves the configuration untouched. -/
def set_unit (cfg : ClientCfg) (txrx : ℕ → Except (List Char) (List Char))
    (u : List Char) : ClientCfg × Except CmdFailure Unit :=
  match (safeCmd cfg.retries txrx ((("U,").data) ++ u)).2.2 with
  | .error e => (cfg, .error e)
  | .ok _ => ({ cfg with unit := u }, .ok ())

/-- Mirrors `DPS8000.set_autosend`: send `A,1` or `A,0`; no configuration
field is cached. -/
def set_autosend (cfg : ClientCfg) (txrx : ℕ → Except (List Char) (List Char))
    (o : Bool) : ClientCfg × Except CmdFailure Unit :=
  match (safeCmd cfg.retries txrx
      (if o then ("A,1").data else ("A,0").data)).2.2 with
  | .error e => (cfg, .error e)
  | .ok _ => (cfg, .ok ())

/-- Mirrors `DPS8000.set_direct_mode`: send `N,0`, then cache
`direct_mode := True`, `address := 0`. -/
def set_direct_mode (cfg : ClientCfg)
    (txrx : ℕ → Except (List Char) (List Char)) :
    ClientCfg × Except CmdFailure Unit :=
  match (safeCmd cfg.retries txrx (("N,0").data)).2.2 with
  | .error e => (cfg, .error e)
  | .ok _ => ({ cfg with direct_mode := true, address := some 0 }, .ok ())

/-- A raised exception of a public configuration call: a `DPS8000Error`
from the exchange, or the `ValueError` of `set_address`'s range check. -/
inductive CallErr where
  | dps (e : CmdFailure)
  | valueError
deriving DecidableEq, Repr

/-- Mirrors `DPS8000.set_address`: range-check `0 <= addr <= 31` (raising
`ValueError` before anything is sent), send `N,<addr>`, then cache
`direct_mode := (addr == 0)`, `address := addr`. -/
def set_address (cfg : ClientCfg) (txrx : ℕ → Except (List Char) (List Char))
    (addr : ℤ) : ClientCfg × Except CallErr Unit :=
  if ¬(0 ≤ addr ∧ addr ≤ 31) then (cfg, .error .valueError)
  else
    match (safeCmd cfg.retries txrx ((("N,").data) ++ intToChars addr)).2.2 with
    | .error e => (cfg, .error (.dps e))
    | .ok _ =>
      ({ cfg with direct_mode := decide (addr = 0), address := some addr },
        .ok ())

/-- Mirrors `DPS8000._parse_value_unit`: split on the first comma, parse the
float; `error` carries the text whose `float()` conversion raised
`ValueError`. -/
def parse_value_unit (text : List Char) :
    Except (List Char) (ℚ × Option (List Char)) :=
  match splitOnce ',' text with
  | some (v, u) =>
    match pyFloat (pyStrip v) with
    | some q => .ok (q, some (pyStrip u))
    | none => .error v
  | none =>
    match pyFloat (pyStrip text) with
    | some q => .ok (q, none)
    | none => .error text

/-- The two payloads a raised `DPS8000Error` can carry in `read_pressure`:
the exhausted-retries failure and the unit mismatch. -/
inductive DPSErrKind where
  | cmdFailed (f : CmdFailure)
  | unitMismatch (devUnit cfgUnit : List Char)
deriving DecidableEq, Repr

/-- A Python exception escaping `read_pressure`: a typed `DPS8000Error` or
the `ValueError` of a failed `float()` conversion. -/
inductive PyExc where
  | dps (e : DPSErrKind)
  | valueError (s : List Char)
deriving DecidableEq, Repr

/-- Mirrors `DPS8000.read_pressure`: issue `*G`, parse value and unit, and
raise `DPS8000Error` on a unit mismatch (the truthiness guards `if unit and
self.cfg.unit and ...` become nonemptiness tests). -/
def read_pressure (cfg : ClientCfg)
    (txrx : ℕ → Except (List Char) (List Char)) : Except PyExc ℚ :=
  match (safeCmd cfg.retries txrx (("*G").data)).2.2 with
  | .error e => .error (.dps (.cmdFailed e))
  | .ok resp =>
    match parse_value_unit resp with
    | .error s => .error (.valueError s)
    | .ok (v, none) => .ok v
    | .ok (v, some u) =>
      if u ≠ [] ∧ cfg.unit ≠ [] ∧ pyLower u ≠ pyLower cfg.unit then
        .error (.dps (.unitMismatch u cfg.unit))
      else .ok v

/-! ## Unit conversion and adapter (`dps8000_adapter.py`) -/

/-- The `Unit` literal type of the adapter. -/
inductive PressureUnit where
  | bar | Pa | kPa | mbar | psi
deriving DecidableEq, Repr

/-- The unit's protocol string. -/
def unitChars : PressureUnit → List Char
  | .bar => ("bar").data
  | .Pa => ("Pa").data
  | .kPa => ("kPa").data
  | .mbar => ("mbar").data
  | .psi => ("psi").data

/-- The adapter's `_BAR_TO` table, embedded exactly. -/
def _BAR_TO : PressureUnit → ℚ
  | .bar => 1
  | .Pa => 100000
  | .kPa => 100
  | .mbar => 1000
  | .psi => 14503773773 / 1000000000

/-- The adapter's `_TO_BAR` table: `{u: 1.0 / k for u, k in _BAR_TO.items()}`. -/
def _TO_BAR (u : PressureUnit) : ℚ := 1 / _BAR_TO u

/-- Mirrors the adapter's `_convert(value, from_unit, to_unit)`. -/
def _convert (value : ℚ) (fromU toU : PressureUnit) : ℚ :=
  if fromU = toU then value else value * _TO_BAR fromU * _BAR_TO toU

/-- The adapter-level configuration fields the acquisition path reads. -/
structure AdapterCfg where
  device_unit : PressureUnit
  target_unit : PressureUnit
  retries : ℕ
deriving DecidableEq, Repr

/-- The `DPS8000Config` the adapter constructs for its client. -/
def clientOf (cfg : AdapterCfg) : ClientCfg :=
  { unit := unitChars cfg.device_unit, direct_mode := true, address := none,
    retries := cfg.retries }

/-- One acquisition record.  For `read_sample` it is the returned dict; for
`dps_read_once` it is the CSV row restricted to its DPS-derived columns
(`ts_iso, t_perf, pressure, unit, source`) — the thermal columns come from
the out-of-scope `rpi_thermal` sampler and the optional `raw` column from the
`--with-raw` path, neither of which is modelled.  `pressure = none` embeds the
float `NaN` that is rendered as an empty CSV cell. -/
structure Sample where
  ts_iso : List Char
  t_perf : ℝ
  pressure : Option ℚ
  unit : List Char
  source : List Char

/-- Mirrors `DPS8000Adapter.read_sample`: capture the timestamps, read the
pressure (letting any exception propagate — there is no handler here),
convert device unit to target unit, and build the Sample. -/
def read_sample (cfg : AdapterCfg)
    (txrx : ℕ → Except (List Char) (List Char)) (t_perf : ℝ)
    (ts_iso : List Char) : Except PyExc Sample :=
  match read_pressure (clientOf cfg) txrx with
  | .error e => .error e
  | .ok v =>
    .ok { ts_iso := ts_iso, t_perf := t_perf,
          pressure := some (_convert v cfg.device_unit cfg.target_unit),
          unit := unitChars cfg.target_unit, source := ("DPS8000").data }

/-- The `str(e)` text of a raised `DPS8000Error`, following the two f-strings
in `read_pressure` / `_safe_cmd`. -/
def dpsErrText : DPSErrKind → List Char
  | .cmdFailed f =>
    (("Command '").data) ++ f.cmd ++ (("' failed: ").data) ++ f.lastCause
  | .unitMismatch du cu =>
    (("Unit mismatch: device='").data) ++ du ++ (("' vs cfg='").data) ++ cu ++
      (("'").data)

/-- Mirrors `dps_logger.dps_read_once` on the `--with-raw`-disabled path: the
`DPSRuntime` uses the CLI unit for both `device_unit` and `target_unit`; a
raised `DPS8000Error` is mapped to a row with `pressure = NaN` and
`source = f"DPS8000_ERR:{e}"`, while any other exception (`ValueError` from a
malformed reply) propagates to the caller. -/
def dps_read_once (u : PressureUnit) (retries : ℕ)
    (txrx : ℕ → Except (List Char) (List Char)) (t_perf : ℝ)
    (ts_iso : List Char) : Except PyExc Sample :=
  match read_sample ⟨u, u, retries⟩ txrx t_perf ts_iso with
  | .ok s =>
    .ok { ts_iso := ts_iso, t_perf := t_perf, pressure := s.pressure,
          unit := s.unit, source := s.source }
  | .error (.dps e) =>
    .ok { ts_iso := ts_iso, t_perf := t_perf, pressure := none,
          unit := unitChars u,
          source := (("DPS8000_ERR:").data) ++ dpsErrText e }
  | .error (.valueError s) => .error (.valueError s)

/-! ## Scheduler (`dps_logger.run_logger`, lines 323–359) -/

/-- The residual wait computed after cycle `count`:
`wait_time = count * interval_s - (tp_end - tp0)`. -/
def waitTime (tp0 interval_s : ℝ) (count : ℕ) (tp_end : ℝ) : ℝ :=
  count * interval_s - (tp_end - tp0)

/-- The time actually slept: `if wait_time > 0: sleep(wait_time)`. -/
noncomputable def sleepDuration (w : ℝ) : ℝ := if 0 < w then w else 0

/-- The deadline after `count` completed cycles, anchored at the one-time
synchronization reference `tp0`. -/
def nextDeadline (tp0 interval_s : ℝ) (count : ℕ) : ℝ :=
  tp0 + interval_s * count

/-! ## Signal gate (`dps_logger._sig_handler`, lines 90–113) -/

/-- What a delivered SIGINT/SIGTERM does. -/
inductive SigAction where
  | ignored
  | raiseSystemExit (code : ℕ)
deriving DecidableEq, Repr

/-- The entire mutable state `_sig_handler` can read or write: the module
global `disable_halt`.  (The source has no pending-stop variable; the
`halt_requested` flag described in the module docstring does not exist.) -/
structure GateState where
  disable_halt : Bool
deriving DecidableEq, Repr

/-- Mirrors `_sig_handler`: while a measurement cycle is in progress
(`disable_halt = True`) the handler returns immediately; otherwise it raises
`SystemExit(0)` on the spot. -/
def sig_handler (st : GateState) : GateState × SigAction :=
  if st.disable_halt then (st, .ignored) else (st, .raiseSystemExit 0)

/-- Concrete driver configuration mirror (unit bar, direct mode, retries 2,
matching `DPS8000Config`'s defaults). -/
def cfgBar : ClientCfg :=
  { unit := ("bar").data, direct_mode := true, address := none, retries := 2 }

/-- The backoff durations `_safe_cmd` sleeps over `n` consecutive failed
attempts, the first of which has attempt index `a`. -/
def backoffs (a : ℕ) : ℕ → List ℚ
  | 0 => []
  | n + 1 => (1 / 20 : ℚ) * (a + 1) :: backoffs (a + 1) n


/-! ## Theorems -/

/-- C1: in Settle mode, `step_to p` re-anchors `t0` to `now`, sets `p1` to the
pre-step value at `now` and `p2` to the new target `p`; the value evaluated
immediately after the step equals the value immediately before it (no jump at
the instant of the step), and the post-step value converges to `p` as time
grows. -/
theorem step_to_continuity_and_convergence (s : Signal) (now g p : ℝ)
    (hmode : s.cfg.mode = Mode.settle) :
    (s.step_to now g p).t0 = now ∧
    (s.step_to now g p).cfg.p1 = s.value now g ∧
    (s.step_to now g p).cfg.p2 = p ∧
    (s.step_to now g p).value now g = s.value now g ∧
    Tendsto (fun t => (s.step_to now g p).value t g) atTop (nhds p) := by
  refine ⟨rfl, rfl, rfl, ?_, ?_⟩
  · simp [Signal.step_to, Signal.value, hmode]
  · have hD : (0 : ℝ) < max (1 / 1000000) s.cfg.tau_s :=
      lt_of_lt_of_le (by norm_num) (le_max_left _ _)
    have h1 : Tendsto (fun t : ℝ => t - now) atTop atTop :=
      tendsto_atTop_add_const_right atTop (-now) tendsto_id
    have h2 : Tendsto (fun t : ℝ => (t - now) / max (1 / 1000000) s.cfg.tau_s)
        atTop atTop := h1.atTop_div_const hD
    have h3 : Tendsto
        (fun t : ℝ => -((t - now) / max (1 / 1000000) s.cfg.tau_s)) atTop atBot :=
      tendsto_neg_atTop_atBot.comp h2
    have h4 : Tendsto
        (fun t : ℝ => Real.exp (-((t - now) / max (1 / 1000000) s.cfg.tau_s)))
        atTop (nhds 0) := Real.tendsto_exp_atBot.comp h3
    have h5 : Tendsto
        (fun t : ℝ => Real.exp
          (-(max 0 (t - now)) / max (1 / 1000000) s.cfg.tau_s))
        atTop (nhds 0) := by
      refine h4.congr' ?_
      filter_upwards [eventually_ge_atTop now] with t ht
      rw [max_eq_right (sub_nonneg.2 ht), neg_div]
    have h6 := (h5.const_mul ((s.step_to now g p).cfg.p1 - p)).const_add p
    simp only [mul_zero, add_zero] at h6
    refine Tendsto.congr' ?_ h6
    filter_upwards with t
    simp [Signal.step_to, Signal.value, hmode]

/-- Witness for `step_to_continuity_and_convergence` at the concrete Settle
state `settleExample`, stepping to `0.8` at `now = 1`. -/
theorem step_to_continuity_and_convergence_witness :
    (settleExample.step_to 1 0 0.8).t0 = 1 ∧
    (settleExample.step_to 1 0 0.8).cfg.p1 = settleExample.value 1 0 ∧
    (settleExample.step_to 1 0 0.8).cfg.p2 = 0.8 ∧
    (settleExample.step_to 1 0 0.8).value 1 0 = settleExample.value 1 0 ∧
    Tendsto (fun t => (settleExample.step_to 1 0 0.8).value t 0)
      atTop (nhds 0.8) :=
  step_to_continuity_and_convergence settleExample 1 0 0.8 rfl
/-- Evaluation of `pyFloat` at the literal `"2"`. -/
theorem pyFloat_two : pyFloat (("2").data) = some 2 := by
  rw [pyFloat, show pyFloatParts (("2").data) = some ⟨1, 2, 0, 0, 0⟩ from by decide]
  norm_num [partsVal]

/-- C7 counterexample: the accepted command `S,TAU,2`, handled at time
`now = 5` on a state whose reference time is `t0 = 0`, is acknowledged with
`S,OK,TAU,2` yet leaves `t0 = 0 ≠ 5`: `S,TAU` does not re-anchor `t0`. -/
theorem sTau_accepted_but_t0_not_reanchored :
    (handleCommand devDirect settleExample 5 0 (("S,TAU,2").data)).replies =
      [Reply.sOkTau 2] ∧
    (handleCommand devDirect settleExample 5 0 (("S,TAU,2").data)).sig.t0 = 0 ∧
    (0 : ℝ) ≠ 5 := by
  have hc : handleCommand devDirect settleExample 5 0 (("S,TAU,2").data) =
      applyCmd devDirect settleExample 5 0
        (Cmd.sKV (("TAU").data) (("2").data)) := rfl
  refine ⟨?_, ?_, by norm_num⟩
  · rw [hc]
    simp only [applyCmd]
    rw [show pyFloat (("2").data) = some 2 from pyFloat_two]
    simp
    norm_num
  · rw [hc]
    simp only [applyCmd]
    rw [show pyFloat (("2").data) = some 2 from pyFloat_two]
    rfl

/-- C7 (amended): an accepted `S,P2,<v>` re-anchors `t0 := now` and sets
`p1 := value(now)` before overwriting `p2`; an accepted `S,MODE,<name>`
re-anchors `t0 := now`; but an accepted `S,TAU,<v>` leaves `t0` unchanged and
only stores the clamped time constant. -/
theorem sFamily_reanchor_behavior (dev : DeviceCfg) (sig : Signal) (now g : ℝ)
    (v w : List Char) (x : ℚ) (m : Mode)
    (hx : pyFloat v = some x) (hm : parseMode (pyLower w) = some m) :
    ((applyCmd dev sig now g (Cmd.sKV (("P2").data) v)).sig.t0 = now ∧
     (applyCmd dev sig now g (Cmd.sKV (("P2").data) v)).sig.cfg.p1 =
       sig.value now g ∧
     (applyCmd dev sig now g (Cmd.sKV (("P2").data) v)).sig.cfg.p2 = (x : ℝ)) ∧
    (applyCmd dev sig now g (Cmd.sKV (("MODE").data) w)).sig.t0 = now ∧
    ((applyCmd dev sig now g (Cmd.sKV (("TAU").data) v)).sig.t0 = sig.t0 ∧
     (applyCmd dev sig now g (Cmd.sKV (("TAU").data) v)).sig.cfg.tau_s =
       max (1 / 1000000) (x : ℝ)) := by
  refine ⟨⟨?_, ?_, ?_⟩, ?_, ?_, ?_⟩ <;>
    simp [applyCmd, hx, hm, Signal.step_to]

/-- Witness for `sFamily_reanchor_behavior`: the argument strings `"2"`
(parsing to `2`) and `"saw"` (a valid mode name), on the concrete Settle
state `settleExample` at `now = 5`. -/
theorem sFamily_reanchor_behavior_witness :
    ((applyCmd devDirect settleExample 5 0
        (Cmd.sKV (("P2").data) (("2").data))).sig.t0 = 5 ∧
     (applyCmd devDirect settleExample 5 0
        (Cmd.sKV (("P2").data) (("2").data))).sig.cfg.p1 =
       settleExample.value 5 0 ∧
     (applyCmd devDirect settleExample 5 0
        (Cmd.sKV (("P2").data) (("2").data))).sig.cfg.p2 = ((2 : ℚ) : ℝ)) ∧
    (applyCmd devDirect settleExample 5 0
        (Cmd.sKV (("MODE").data) (("saw").data))).sig.t0 = 5 ∧
    ((applyCmd devDirect settleExample 5 0
        (Cmd.sKV (("TAU").data) (("2").data))).sig.t0 = settleExample.t0 ∧
     (applyCmd devDirect settleExample 5 0
        (Cmd.sKV (("TAU").data) (("2").data))).sig.cfg.tau_s =
       max (1 / 1000000) ((2 : ℚ) : ℝ)) :=
  sFamily_reanchor_behavior devDirect settleExample 5 0 (("2").data)
    (("saw").data) 2 Mode.saw pyFloat_two (by decide)

/-- Replies of `applyCmd` do not depend on the configured address when
address echo is disabled. -/
theorem applyCmd_replies_addr_indep (dev : DeviceCfg) (sig : Signal)
    (now g : ℝ) (hecho : dev.echo_address_in_reply = false) (c : Cmd) :
    (applyCmd { dev with addr := 0 } sig now g c).replies =
      (applyCmd dev sig now g c).replies := by
  cases c with
  | ident => rfl
  | setAddr a => cases a <;> rfl
  | setUnit u => by_cases h : u ∈ unitsAllowed <;> simp [applyCmd, h]
  | setAuto v =>
    by_cases h0 : v = ("0").data
    · simp [applyCmd, h0]
    · by_cases h1 : v = ("1").data <;> simp [applyCmd, h0, h1]
  | readR => simp [applyCmd, echoTag, hecho]
  | readG => simp [applyCmd, echoTag, hecho]
  | readT =>
    have hT : ∀ d' : DeviceCfg, d'.temp_c = dev.temp_c →
        d'.temp_drift_c_per_min = dev.temp_drift_c_per_min →
        d'.last_temp_update = dev.last_temp_update →
        (nowTemp d' now).2 = (nowTemp dev now).2 := by
      intro d' h1 h2 h3
      simp only [nowTemp, h1, h2, h3]
      split_ifs <;> rfl
    simp [applyCmd, echoTag, hecho]
    exact hT _ rfl rfl rfl
  | readZ => simp [applyCmd, echoTag, hecho]
  | sKV k v =>
    by_cases hp : k = ("P2").data
    · cases hf : pyFloat v <;> simp [applyCmd, hp, hf]
    · by_cases ht : k = ("TAU").data
      · cases hf : pyFloat v <;> simp [applyCmd, hp, ht, hf]
      · by_cases hm : k = ("MODE").data
        · cases hmm : parseMode (pyLower v) <;> simp [applyCmd, hp, ht, hm, hmm]
        · simp [applyCmd, hp, ht, hm]
  | sBad => rfl
  | unknown => rfl

/-- C9 (amended): with a non-zero configured address, an inbound line without
an address tag is dispatched exactly as in direct mode (with identical replies
when address echo is off); a line tagged with a foreign address is silently
dropped with no reply and no state change; a line tagged with the simulator's
own address is handled with the tag stripped. -/
theorem network_mode_address_filtering (dev : DeviceCfg) (sig : Signal)
    (now g : ℝ) (raw : List Char) (ha : dev.addr ≠ 0)
    (hecho : dev.echo_address_in_reply = false) (hraw : raw ≠ []) :
    (addrTagOf (pyStrip raw) = none →
      handleCommand dev sig now g raw =
        applyCmd dev sig now g (parseCmd (pyStrip raw)) ∧
      (handleCommand dev sig now g raw).replies =
        (handleCommand { dev with addr := 0 } sig now g raw).replies) ∧
    (∀ a rest, addrTagOf (pyStrip raw) = some (a, rest) → a ≠ dev.addr →
      handleCommand dev sig now g raw = ⟨dev, sig, []⟩) ∧
    (∀ rest, addrTagOf (pyStrip raw) = some (dev.addr, rest) →
      handleCommand dev sig now g raw =
        applyCmd dev sig now g (parseCmd (pyStrip rest))) := by
  refine ⟨?_, ?_, ?_⟩
  · intro h
    have hL : handleCommand dev sig now g raw =
        applyCmd dev sig now g (parseCmd (pyStrip raw)) := by
      simp [handleCommand, hraw, stripAddr, ha, h]
    have hR : handleCommand { dev with addr := 0 } sig now g raw =
        applyCmd { dev with addr := 0 } sig now g (parseCmd (pyStrip raw)) := by
      simp [handleCommand, hraw, stripAddr]
    refine ⟨hL, ?_⟩
    rw [hL, hR, applyCmd_replies_addr_indep dev sig now g hecho]
  · intro a rest h hne
    simp [handleCommand, hraw, stripAddr, ha, h, hne]
  · intro rest h
    simp [handleCommand, hraw, stripAddr, ha, h]

/-- Witness for `network_mode_address_filtering` at `addr = 5`, echo off, on
the untagged line `"R"`, the foreign-tagged line `"3:R"` and the own-tagged
line `"5:R"` (the latter two enter through the tag hypotheses). -/
theorem network_mode_address_filtering_witness :
    (addrTagOf (pyStrip (("R").data)) = none →
      handleCommand { devEcho with echo_address_in_reply := false }
          settleExample 0 0 (("R").data) =
        applyCmd { devEcho with echo_address_in_reply := false }
          settleExample 0 0 (parseCmd (pyStrip (("R").data))) ∧
      (handleCommand { devEcho with echo_address_in_reply := false }
          settleExample 0 0 (("R").data)).replies =
        (handleCommand
          { { devEcho with echo_address_in_reply := false } with addr := 0 }
          settleExample 0 0 (("R").data)).replies) ∧
    (∀ a rest, addrTagOf (pyStrip (("R").data)) = some (a, rest) →
      a ≠ ({ devEcho with echo_address_in_reply := false } : DeviceCfg).addr →
      handleCommand { devEcho with echo_address_in_reply := false }
          settleExample 0 0 (("R").data) =
        ⟨{ devEcho with echo_address_in_reply := false }, settleExample, []⟩) ∧
    (∀ rest, addrTagOf (pyStrip (("R").data)) =
        some (({ devEcho with echo_address_in_reply := false } :
          DeviceCfg).addr, rest) →
      handleCommand { devEcho with echo_address_in_reply := false }
          settleExample 0 0 (("R").data) =
        applyCmd { devEcho with echo_address_in_reply := false }
          settleExample 0 0 (parseCmd (pyStrip rest))) :=
  network_mode_address_filtering _ settleExample 0 0 (("R").data)
    (by norm_num [devEcho]) rfl (by decide)

/-- C9 counterexample: with `addr = 5` and address echo enabled, the untagged
line `"R"` is answered with a `5:`-tagged measurement, which differs from the
direct-mode reply — so the reply is not byte-identical to direct mode. -/
theorem network_noPrefix_reply_not_direct_when_echo :
    (handleCommand devEcho settleExample 0 0 (("R").data)).replies ≠
      (handleCommand { devEcho with addr := 0 } settleExample 0 0
        (("R").data)).replies := by
  have h1 : (handleCommand devEcho settleExample 0 0 (("R").data)).replies =
      [Reply.measR (convert_from_bar (settleExample.value 0 0) (("bar").data))
        (some 5)] := rfl
  have h2 : (handleCommand { devEcho with addr := 0 } settleExample 0 0
      (("R").data)).replies =
      [Reply.measR (convert_from_bar (settleExample.value 0 0) (("bar").data))
        none] := rfl
  rw [h1, h2]
  simp

/-- C10: in Settle mode the evaluation is total: the divisor is the clamp
`max 1e-6 tau` and is strictly positive, the elapsed time is clamped to
`max 0 (t - t0)` so that evaluation before `t0` returns `p1`, and the
simulator's `S,TAU` handler stores a time constant no smaller than `1e-6`. -/
theorem settle_value_total (c : SignalCfg) (t0v t g : ℝ)
    (h : c.mode = Mode.settle) :
    (0 : ℝ) < max (1 / 1000000) c.tau_s ∧
    Signal.value ⟨c, t0v⟩ t g =
      c.p2 + (c.p1 - c.p2) *
        Real.exp (-(max 0 (t - t0v)) / max (1 / 1000000) c.tau_s) ∧
    (t ≤ t0v → Signal.value ⟨c, t0v⟩ t g = c.p1) ∧
    (∀ (dev : DeviceCfg) (sig : Signal) (now g' : ℝ) (v : List Char) (x : ℚ),
      pyFloat v = some x →
      (1 / 1000000 : ℝ) ≤
        (applyCmd dev sig now g' (Cmd.sKV (("TAU").data) v)).sig.cfg.tau_s) := by
  refine ⟨lt_of_lt_of_le (by norm_num) (le_max_left _ _), ?_, ?_, ?_⟩
  · simp [Signal.value, h]
  · intro hle
    have h0 : max 0 (t - t0v) = 0 := max_eq_left (by linarith)
    simp [Signal.value, h, h0]
  · intro dev sig now g' v x hx
    simp [applyCmd, hx]

/-- Witness for `settle_value_total` on a Settle configuration with a
negative time constant `tau = -3`, evaluated at `t = 2` before `t0 = 5`,
and the `S,TAU` store at the argument string `"2"`. -/
theorem settle_value_total_witness :
    (0 : ℝ) < max (1 / 1000000) (-3 : ℝ) ∧
    Signal.value ⟨⟨Mode.settle, 1, 0.2, 0.05, 1.5, 1, -3, 0.01⟩, 5⟩ 2 0 =
      (1 : ℝ) + ((1.5 : ℝ) - 1) *
        Real.exp (-(max 0 ((2 : ℝ) - 5)) / max (1 / 1000000) (-3 : ℝ)) ∧
    ((2 : ℝ) ≤ 5 →
      Signal.value ⟨⟨Mode.settle, 1, 0.2, 0.05, 1.5, 1, -3, 0.01⟩, 5⟩ 2 0 =
        1.5) ∧
    (∀ (dev : DeviceCfg) (sig : Signal) (now g' : ℝ) (v : List Char) (x : ℚ),
      pyFloat v = some x →
      (1 / 1000000 : ℝ) ≤
        (applyCmd dev sig now g' (Cmd.sKV (("TAU").data) v)).sig.cfg.tau_s) :=
  settle_value_total ⟨Mode.settle, 1, 0.2, 0.05, 1.5, 1, -3, 0.01⟩ 5 2 0 rfl
/-- Closed form of the backoff list: the delays are linear in the attempt
index. -/
theorem backoffs_eq_map (n : ℕ) : ∀ a : ℕ,
    backoffs a n =
      (List.range n).map (fun i : ℕ => (1 / 20 : ℚ) * (a + i + 1)) := by
  induction n with
  | zero => intro a; rfl
  | succ m ih =>
    intro a
    rw [backoffs, ih (a + 1)]
    conv_rhs => rw [List.range_succ_eq_map]
    rw [List.map_cons, List.map_map]
    congr 1
    · push_cast
      ring
    · refine List.map_congr_left ?_
      intro i _
      simp only [Function.comp_apply]
      push_cast
      ring

/-- Behavior of `_safe_cmd`'s loop when every exchange fails, for any
starting attempt index: `n + 1` further iterations make `n + 1` attempts,
sleep the linear backoffs, and report the cause of the last attempt. -/
theorem safeCmdGo_all_fail (txrx : ℕ → Except (List Char) (List Char))
    (err : ℕ → List Char) (cmd : List Char)
    (h : ∀ k, txrx k = .error (err k)) :
    ∀ (n a : ℕ) (last : Option (List Char)),
      safeCmdGo txrx cmd a (n + 1) last =
        (n + 1, backoffs a (n + 1), .error ⟨cmd, err (a + n)⟩) := by
  intro n
  induction n with
  | zero =>
    intro a last
    rw [safeCmdGo, h a]
    simp [safeCmdGo, backoffs]
  | succ m ih =>
    intro a last
    rw [safeCmdGo, h a]
    dsimp only
    rw [ih (a + 1) (some (err a))]
    dsimp only
    conv_rhs => rw [backoffs]
    rw [show a + 1 + m = a + (m + 1) from by omega]

/-- Against a transport whose every exchange raises, `_safe_cmd` with
`retries = r` makes exactly `r + 1` attempts, sleeps the linear backoff
`0.05 * (attempt + 1)` after each failed attempt, and then raises a
`DPS8000Error` naming the cause of the last attempt. -/
theorem safe_cmd_retry_bound (r : ℕ)
    (txrx : ℕ → Except (List Char) (List Char)) (cmd : List Char)
    (err : ℕ → List Char) (h : ∀ k, txrx k = .error (err k)) :
    safeCmd r txrx cmd =
      (r + 1, (List.range (r + 1)).map (fun i : ℕ => (1 / 20 : ℚ) * (i + 1)),
        .error ⟨cmd, err r⟩) := by
  rw [safeCmd, safeCmdGo_all_fail txrx err cmd h r 0 none,
    backoffs_eq_map (r + 1) 0, Nat.zero_add]
  have hmap : ∀ i ∈ List.range (r + 1),
      (1 / 20 : ℚ) * (((0 : ℕ) : ℚ) + i + 1) = (1 / 20 : ℚ) * (i + 1) := by
    intro i _
    push_cast
    ring
  rw [List.map_congr_left hmap]

/-- C4 counterexample: a malformed (non-empty, unparseable) reply is not an
exchange failure for `_txrx_once`, so `_safe_cmd` with `retries = 2` returns
it as a success after a single attempt with no backoff — not `3` attempts —
and `read_pressure` then raises an untyped `ValueError` from
`_parse_value_unit`, not a typed `DPS8000Error`. -/
theorem malformed_reply_single_attempt_untyped_error :
    (safeCmd 2 (fun _ => .ok (("xx").data)) (("*G").data)).1 = 1 ∧
    (1 : ℕ) ≠ 2 + 1 ∧
    (safeCmd 2 (fun _ => .ok (("xx").data)) (("*G").data)).2.1 = [] ∧
    (safeCmd 2 (fun _ => .ok (("xx").data)) (("*G").data)).2.2 =
      .ok (("xx").data) ∧
    read_pressure cfgBar (fun _ => .ok (("xx").data)) =
      .error (.valueError (("xx").data)) :=
  ⟨rfl, by decide, rfl, rfl, rfl⟩

/-- C4 (amended): the bounded retry policy covers only the failure modes
`_txrx_once` raises (transport timeout and empty reply): against a transport
whose every exchange raises, `_safe_cmd` with `retries = r` makes exactly
`r + 1` attempts with the linear backoff `0.05 * (attempt + 1)` and then
fails with a typed `DPS8000Error` naming the last cause.  A malformed
non-empty reply is not retried: `_safe_cmd` returns it as a success after a
single attempt with no backoff, and `read_pressure`'s `_parse_value_unit`
then raises an untyped `ValueError` outside the retry loop. -/
theorem retry_bound_and_malformed_reply (r : ℕ)
    (txrx : ℕ → Except (List Char) (List Char)) (cmd : List Char)
    (err : ℕ → List Char) (resp s : List Char) (cfg : ClientCfg) :
    ((∀ k, txrx k = .error (err k)) →
      safeCmd r txrx cmd =
        (r + 1,
          (List.range (r + 1)).map (fun i : ℕ => (1 / 20 : ℚ) * (i + 1)),
          .error ⟨cmd, err r⟩)) ∧
    (txrx 0 = .ok resp → safeCmd r txrx cmd = (1, [], .ok resp)) ∧
    (txrx 0 = .ok resp → parse_value_unit resp = .error s →
      read_pressure cfg txrx = .error (.valueError s)) := by
  refine ⟨fun h => safe_cmd_retry_bound r txrx cmd err h, ?_, ?_⟩
  · intro h0
    rw [safeCmd, safeCmdGo, h0]
  · intro h0 hp
    have h2 : safeCmd cfg.retries txrx (("*G").data) = (1, [], .ok resp) := by
      rw [safeCmd, safeCmdGo, h0]
    unfold read_pressure
    rw [h2]
    dsimp only
    rw [hp]

/-- Witness for `retry_bound_and_malformed_reply`: `retries = 2` against a
transport that always times out makes `3` attempts and fails naming the
timeout, while against one that always replies the malformed text `xx` it
stops after one attempt and `read_pressure` raises the untyped
`ValueError`. -/
theorem retry_bound_and_malformed_reply_witness :
    safeCmd 2 (fun _ => .error (("timeout").data)) (("*G").data) =
      (3, (List.range 3).map (fun i : ℕ => (1 / 20 : ℚ) * (i + 1)),
        .error ⟨("*G").data, ("timeout").data⟩) ∧
    safeCmd 2 (fun _ => .ok (("xx").data)) (("*G").data) =
      (1, [], .ok (("xx").data)) ∧
    read_pressure cfgBar (fun _ => .ok (("xx").data)) =
      .error (.valueError (("xx").data)) :=
  ⟨(retry_bound_and_malformed_reply 2 (fun _ => .error (("timeout").data))
      (("*G").data) (fun _ => ("timeout").data) (("xx").data) (("xx").data)
      cfgBar).1 (fun _ => rfl),
   (retry_bound_and_malformed_reply 2 (fun _ => .ok (("xx").data))
      (("*G").data) (fun _ => ("timeout").data) (("xx").data) (("xx").data)
      cfgBar).2.1 rfl,
   (retry_bound_and_malformed_reply 2 (fun _ => .ok (("xx").data))
      (("*G").data) (fun _ => ("timeout").data) (("xx").data) (("xx").data)
      cfgBar).2.2 rfl rfl⟩

/-- C6 counterexample: against a device that replies the non-confirming text
`ERR` (as the simulator does for an unknown unit), `set_unit "furlong"` still
overwrites the cached unit mirror — the reply content is never checked. -/
theorem set_unit_updates_mirror_despite_err_reply :
    (safeCmd cfgBar.retries (fun _ => .ok (("ERR").data))
        ((("U,").data) ++ ("furlong").data)).2.2 = .ok (("ERR").data) ∧
    (set_unit cfgBar (fun _ => .ok (("ERR").data)) (("furlong").data)).1.unit =
      ("furlong").data ∧
    ("furlong").data ≠ ("bar").data :=
  ⟨rfl, rfl, by decide⟩

/-- C6 (amended): each configuration command updates the cached mirror
exactly when the exchange returns normally (any non-empty reply text,
confirming or not); an exchange that raises a typed error — and the
out-of-range `ValueError` of `set_address` — leaves the mirror unchanged,
and `set_autosend` caches nothing. -/
theorem config_mirror_update_semantics (cfg : ClientCfg)
    (txrx : ℕ → Except (List Char) (List Char)) (u : List Char) (o : Bool)
    (addr : ℤ) :
    (exOk (set_unit cfg txrx u).2 = false → (set_unit cfg txrx u).1 = cfg) ∧
    (exOk (set_unit cfg txrx u).2 = true →
      (set_unit cfg txrx u).1 = { cfg with unit := u }) ∧
    (set_autosend cfg txrx o).1 = cfg ∧
    (exOk (set_direct_mode cfg txrx).2 = false →
      (set_direct_mode cfg txrx).1 = cfg) ∧
    (exOk (set_direct_mode cfg txrx).2 = true →
      (set_direct_mode cfg txrx).1 =
        { cfg with direct_mode := true, address := some 0 }) ∧
    (exOk (set_address cfg txrx addr).2 = false →
      (set_address cfg txrx addr).1 = cfg) ∧
    (exOk (set_address cfg txrx addr).2 = true →
      (set_address cfg txrx addr).1 =
        { cfg with direct_mode := decide (addr = 0),
                   address := some addr }) := by
  refine ⟨?_, ?_, ?_, ?_, ?_, ?_, ?_⟩
  · unfold set_unit
    cases (safeCmd cfg.retries txrx ((("U,").data) ++ u)).2.2 <;> simp [exOk]
  · unfold set_unit
    cases (safeCmd cfg.retries txrx ((("U,").data) ++ u)).2.2 <;> simp [exOk]
  · unfold set_autosend
    cases (safeCmd cfg.retries txrx
        (if o then ("A,1").data else ("A,0").data)).2.2 <;> rfl
  · unfold set_direct_mode
    cases (safeCmd cfg.retries txrx (("N,0").data)).2.2 <;> simp [exOk]
  · unfold set_direct_mode
    cases (safeCmd cfg.retries txrx (("N,0").data)).2.2 <;> simp [exOk]
  · unfold set_address
    by_cases ha : ¬(0 ≤ addr ∧ addr ≤ 31)
    · rw [if_pos ha]
      simp [exOk]
    · rw [if_neg ha]
      cases (safeCmd cfg.retries txrx
          ((("N,").data) ++ intToChars addr)).2.2 <;> simp [exOk]
  · unfold set_address
    by_cases ha : ¬(0 ≤ addr ∧ addr ≤ 31)
    · rw [if_pos ha]
      simp [exOk]
    · rw [if_neg ha]
      cases (safeCmd cfg.retries txrx
          ((("N,").data) ++ intToChars addr)).2.2 <;> simp [exOk]

/-- Witness for `config_mirror_update_semantics`: with a transport that
always replies `OK`, `set_unit` updates the cached unit and `set_autosend`
leaves the configuration untouched. -/
theorem config_mirror_update_semantics_witness :
    (set_unit cfgBar (fun _ => .ok (("OK").data)) (("Pa").data)).1 =
      { cfgBar with unit := ("Pa").data } ∧
    (set_autosend cfgBar (fun _ => .ok (("OK").data)) true).1 = cfgBar :=
  ⟨(config_mirror_update_semantics cfgBar (fun _ => .ok (("OK").data))
      (("Pa").data) true 0).2.1 rfl,
   (config_mirror_update_semantics cfgBar (fun _ => .ok (("OK").data))
      (("Pa").data) true 0).2.2.1⟩

/-- C3 counterexample: `DPS8000Adapter.read_sample` has no exception handler;
against a transport that always times out it raises the client's
`DPS8000Error` rather than returning a NaN Sample. -/
theorem read_sample_propagates_device_error :
    read_sample ⟨PressureUnit.bar, PressureUnit.bar, 2⟩
        (fun _ => .error (("timeout").data)) 0 (("t").data) =
      .error (.dps (.cmdFailed ⟨("*G").data, ("timeout").data⟩)) := rfl

/-- C3 (amended): the NaN mapping lives one layer up, in the logger's
`dps_read_once`: every `DPS8000Error` raised through `read_sample` is caught
there and mapped to a row with `pressure = NaN` (empty cell) and
`source = "DPS8000_ERR:<message>"`, and `dps_read_once` never re-raises a
`DPS8000Error`. -/
theorem dps_read_once_recovers_device_errors (u : PressureUnit) (retries : ℕ)
    (txrx : ℕ → Except (List Char) (List Char)) (t_perf : ℝ)
    (ts_iso : List Char) (e : DPSErrKind)
    (h : read_pressure (clientOf ⟨u, u, retries⟩) txrx = .error (.dps e)) :
    dps_read_once u retries txrx t_perf ts_iso =
      .ok { ts_iso := ts_iso, t_perf := t_perf, pressure := none,
            unit := unitChars u,
            source := (("DPS8000_ERR:").data) ++ dpsErrText e } ∧
    ∀ e' : DPSErrKind, dps_read_once u retries txrx t_perf ts_iso ≠
      .error (.dps e') := by
  constructor
  · simp [dps_read_once, read_sample, h]
  · intro e'
    simp [dps_read_once, read_sample, h]

/-- Witness for `dps_read_once_recovers_device_errors`: a transport that
always times out produces the NaN row with the structured error tag. -/
theorem dps_read_once_recovers_device_errors_witness :
    dps_read_once PressureUnit.bar 2 (fun _ => .error (("timeout").data)) 0
        (("t").data) =
      .ok { ts_iso := ("t").data, t_perf := 0, pressure := none,
            unit := unitChars PressureUnit.bar,
            source := (("DPS8000_ERR:").data) ++
              dpsErrText (.cmdFailed ⟨("*G").data, ("timeout").data⟩) } :=
  (dps_read_once_recovers_device_errors PressureUnit.bar 2
    (fun _ => .error (("timeout").data)) 0 (("t").data)
    (.cmdFailed ⟨("*G").data, ("timeout").data⟩) rfl).1

/-- C8: converting bar → X → bar through the adapter's reciprocal scale
tables recovers the original value exactly, for all five supported units. -/
theorem convert_bar_round_trip (v : ℚ) (u : PressureUnit) :
    _convert (_convert v PressureUnit.bar u) u PressureUnit.bar = v := by
  cases u <;> (simp [_convert, _TO_BAR, _BAR_TO]; try ring_nf)

/-- The slept residual equals `max 0` of the wait expression. -/
theorem sleepDuration_eq_max (w : ℝ) : sleepDuration w = max 0 w := by
  rw [sleepDuration]
  rcases lt_or_le 0 w with hw | hw
  · rw [if_pos hw, max_eq_right hw.le]
  · rw [if_neg (not_lt.2 hw), max_eq_left hw]

/-- C5: the residual computed after cycle `count` equals
`(reference + interval * count) - now`; what is slept is exactly
`max 0` of that residual (no sleep on overrun); and consecutive deadlines
differ by exactly one interval, independent of cycle duration. -/
theorem scheduler_residual_and_drift (tp0 interval_s tp_end : ℝ)
    (count : ℕ) :
    waitTime tp0 interval_s count tp_end =
      nextDeadline tp0 interval_s count - tp_end ∧
    sleepDuration (waitTime tp0 interval_s count tp_end) =
      max 0 (nextDeadline tp0 interval_s count - tp_end) ∧
    nextDeadline tp0 interval_s (count + 1) -
      nextDeadline tp0 interval_s count = interval_s := by
  have h1 : waitTime tp0 interval_s count tp_end =
      nextDeadline tp0 interval_s count - tp_end := by
    rw [waitTime, nextDeadline]
    ring
  refine ⟨h1, ?_, ?_⟩
  · rw [sleepDuration_eq_max, h1]
  · rw [nextDeadline, nextDeadline]
    push_cast
    ring

/-- C2: the handler state-transition is the identity — while busy
(`disable_halt = True`) a SIGINT is ignored outright with nothing recorded
(there is no pending-stop flag in the program state), and at an idle point
the handler raises `SystemExit(0)` immediately instead of setting a flag for
the loop to consume. -/
theorem sig_handler_no_flag_and_immediate_exit :
    (∀ st : GateState, (sig_handler st).1 = st) ∧
    sig_handler ⟨true⟩ = (⟨true⟩, SigAction.ignored) ∧
    sig_handler ⟨false⟩ = (⟨false⟩, SigAction.raiseSystemExit 0) := by
  refine ⟨?_, rfl, rfl⟩
  intro st
  rw [sig_handler]
  split_ifs <;> rfl

end DPS
